import Mathlib

/-!
Verification of the background system-metrics sampler of stress-ng
(vmstat / thermalstat / iostat periodic statistics), shallowly embedded
from the C source (stress-vmstat code, second part of
src/stress-ping-sock.c, lines 125-1327).

Machine integers are modelled as `Nat` (unsigned) or `Int` (signed),
with explicit `% 2^w` where the C performs defined modular arithmetic.
-/

/-- 2^64, the modulus of `uint64_t` counters. -/
def U64 : Nat := 2 ^ 64

/-- 2^32, the modulus of the `uint32_t` report counters. -/
def U32 : Nat := 2 ^ 32

/-- `INT_MAX`, the initial value of `sleep_delay` in the scheduler loop. -/
def INT_MAX : Int := 2147483647

/-- `STRESS_MINIMUM(a,b)`: `a < b ? a : b`. -/
def STRESS_MINIMUM (a b : Int) : Int := if a < b then a else b

/--
The delta macros `STRESS_VMSTAT_DELTA` (line 929) and `STRESS_IOSTAT_DELTA`
(line 497): `cur > prev ? cur - prev : 0` on `uint64_t` values.
Both `uint64_t` operands are below 2^64, and the subtraction is only taken
when `prev < cur`, so the `Nat` result is exactly the C result.
-/
def statDelta (cur prev : Nat) : Nat := if prev < cur then cur - prev else 0

/-- `stress_vmstat_t` (lines 186-207): one snapshot of the vmstat counters. -/
structure StressVmstat where
  procs_running : Nat
  procs_blocked : Nat
  swap_total : Nat
  swap_free : Nat
  swap_used : Nat
  memory_free : Nat
  memory_buff : Nat
  memory_cached : Nat
  memory_reclaimable : Nat
  swap_in : Nat
  swap_out : Nat
  block_in : Nat
  block_out : Nat
  interrupt : Nat
  context_switch : Nat
  user_time : Nat
  system_time : Nat
  idle_time : Nat
  wait_time : Nat
  stolen_time : Nat
deriving DecidableEq

/--
`stress_iostat_t` (lines 210-226): one snapshot of `/sys/block/$dev/stat`.
Field names `read_io`, `write_io`, `discard_io` of the C struct are
rendered `read_ios`, `write_ios`, `discard_ios` ("number of I/Os").
-/
structure StressIostat where
  read_ios : Nat
  read_merges : Nat
  read_sectors : Nat
  read_ticks : Nat
  write_ios : Nat
  write_merges : Nat
  write_sectors : Nat
  write_ticks : Nat
  in_flight : Nat
  io_ticks : Nat
  time_in_queue : Nat
  discard_ios : Nat
  discard_merges : Nat
  discard_sectors : Nat
  discard_ticks : Nat
deriving DecidableEq

/--
`stress_get_vmstat` (lines 937-966): given the previous snapshot
(`vmstat_prev` static) and the freshly read current one, produce the
reported record: gauge fields are copied (`STRESS_VMSTAT_COPY`),
cumulative fields are differenced with clamping (`STRESS_VMSTAT_DELTA`).
-/
def stress_get_vmstat (prev cur : StressVmstat) : StressVmstat :=
  { procs_running := cur.procs_running
    procs_blocked := cur.procs_blocked
    swap_total := cur.swap_total
    swap_used := cur.swap_used
    swap_free := cur.swap_free
    memory_free := cur.memory_free
    memory_buff := cur.memory_buff
    memory_cached := cur.memory_cached
    memory_reclaimable := cur.memory_reclaimable
    swap_in := statDelta cur.swap_in prev.swap_in
    swap_out := statDelta cur.swap_out prev.swap_out
    block_in := statDelta cur.block_in prev.block_in
    block_out := statDelta cur.block_out prev.block_out
    interrupt := statDelta cur.interrupt prev.interrupt
    context_switch := statDelta cur.context_switch prev.context_switch
    user_time := statDelta cur.user_time prev.user_time
    system_time := statDelta cur.system_time prev.system_time
    idle_time := statDelta cur.idle_time prev.idle_time
    wait_time := statDelta cur.wait_time prev.wait_time
    stolen_time := statDelta cur.stolen_time prev.stolen_time }

/--
`stress_get_iostat` (lines 505-528): every field of the iostat record is
differenced with `STRESS_IOSTAT_DELTA` against the previous snapshot.
-/
def stress_get_iostat (prev cur : StressIostat) : StressIostat :=
  { read_ios := statDelta cur.read_ios prev.read_ios
    read_merges := statDelta cur.read_merges prev.read_merges
    read_sectors := statDelta cur.read_sectors prev.read_sectors
    read_ticks := statDelta cur.read_ticks prev.read_ticks
    write_ios := statDelta cur.write_ios prev.write_ios
    write_merges := statDelta cur.write_merges prev.write_merges
    write_sectors := statDelta cur.write_sectors prev.write_sectors
    write_ticks := statDelta cur.write_ticks prev.write_ticks
    in_flight := statDelta cur.in_flight prev.in_flight
    io_ticks := statDelta cur.io_ticks prev.io_ticks
    time_in_queue := statDelta cur.time_in_queue prev.time_in_queue
    discard_ios := statDelta cur.discard_ios prev.discard_ios
    discard_merges := statDelta cur.discard_merges prev.discard_merges
    discard_sectors := statDelta cur.discard_sectors prev.discard_sectors
    discard_ticks := statDelta cur.discard_ticks prev.discard_ticks }

/--
The swap-used fixup at the end of the `/proc/meminfo` parse in
`stress_read_vmstat` (lines 709-713):
if `swap_used == 0 && swap_free > 0 && swap_total > 0` then
`swap_used = swap_total - swap_free` (a `uint64_t` subtraction, hence
taken modulo 2^64); otherwise the parsed value is kept.
-/
def stress_read_vmstat_swap_fixup (v : StressVmstat) : StressVmstat :=
  if v.swap_used = 0 ∧ 0 < v.swap_free ∧ 0 < v.swap_total then
    { v with swap_used := (v.swap_total + U64 - v.swap_free) % U64 }
  else
    v

/-- The clamped delta, read over `Int`, is `max (cur - prev) 0`. -/
theorem statDelta_eq_max (cur prev : Nat) :
    ((statDelta cur prev : Nat) : Int) = max ((cur : Int) - (prev : Int)) 0 := by
  simp only [statDelta]
  split <;> omega

/-- C3: For every pair of consecutive snapshots of the same source and every
cumulative counter field, the computed delta equals `max (cur - prev) 0`:
if the current value is below the previous one the delta is exactly 0,
otherwise it is the exact unsigned difference.  Stated for all 11
differenced vmstat fields and all 15 differenced iostat fields. -/
theorem c3_delta_clamped (prev cur : StressVmstat) (iprev icur : StressIostat) :
    (((stress_get_vmstat prev cur).swap_in : Int) = max ((cur.swap_in : Int) - prev.swap_in) 0) ∧
    (((stress_get_vmstat prev cur).swap_out : Int) = max ((cur.swap_out : Int) - prev.swap_out) 0) ∧
    (((stress_get_vmstat prev cur).block_in : Int) = max ((cur.block_in : Int) - prev.block_in) 0) ∧
    (((stress_get_vmstat prev cur).block_out : Int) = max ((cur.block_out : Int) - prev.block_out) 0) ∧
    (((stress_get_vmstat prev cur).interrupt : Int) = max ((cur.interrupt : Int) - prev.interrupt) 0) ∧
    (((stress_get_vmstat prev cur).context_switch : Int) = max ((cur.context_switch : Int) - prev.context_switch) 0) ∧
    (((stress_get_vmstat prev cur).user_time : Int) = max ((cur.user_time : Int) - prev.user_time) 0) ∧
    (((stress_get_vmstat prev cur).system_time : Int) = max ((cur.system_time : Int) - prev.system_time) 0) ∧
    (((stress_get_vmstat prev cur).idle_time : Int) = max ((cur.idle_time : Int) - prev.idle_time) 0) ∧
    (((stress_get_vmstat prev cur).wait_time : Int) = max ((cur.wait_time : Int) - prev.wait_time) 0) ∧
    (((stress_get_vmstat prev cur).stolen_time : Int) = max ((cur.stolen_time : Int) - prev.stolen_time) 0) ∧
    (((stress_get_iostat iprev icur).read_ios : Int) = max ((icur.read_ios : Int) - iprev.read_ios) 0) ∧
    (((stress_get_iostat iprev icur).read_merges : Int) = max ((icur.read_merges : Int) - iprev.read_merges) 0) ∧
    (((stress_get_iostat iprev icur).read_sectors : Int) = max ((icur.read_sectors : Int) - iprev.read_sectors) 0) ∧
    (((stress_get_iostat iprev icur).read_ticks : Int) = max ((icur.read_ticks : Int) - iprev.read_ticks) 0) ∧
    (((stress_get_iostat iprev icur).write_ios : Int) = max ((icur.write_ios : Int) - iprev.write_ios) 0) ∧
    (((stress_get_iostat iprev icur).write_merges : Int) = max ((icur.write_merges : Int) - iprev.write_merges) 0) ∧
    (((stress_get_iostat iprev icur).write_sectors : Int) = max ((icur.write_sectors : Int) - iprev.write_sectors) 0) ∧
    (((stress_get_iostat iprev icur).write_ticks : Int) = max ((icur.write_ticks : Int) - iprev.write_ticks) 0) ∧
    (((stress_get_iostat iprev icur).in_flight : Int) = max ((icur.in_flight : Int) - iprev.in_flight) 0) ∧
    (((stress_get_iostat iprev icur).io_ticks : Int) = max ((icur.io_ticks : Int) - iprev.io_ticks) 0) ∧
    (((stress_get_iostat iprev icur).time_in_queue : Int) = max ((icur.time_in_queue : Int) - iprev.time_in_queue) 0) ∧
    (((stress_get_iostat iprev icur).discard_ios : Int) = max ((icur.discard_ios : Int) - iprev.discard_ios) 0) ∧
    (((stress_get_iostat iprev icur).discard_merges : Int) = max ((icur.discard_merges : Int) - iprev.discard_merges) 0) ∧
    (((stress_get_iostat iprev icur).discard_sectors : Int) = max ((icur.discard_sectors : Int) - iprev.discard_sectors) 0) ∧
    (((stress_get_iostat iprev icur).discard_ticks : Int) = max ((icur.discard_ticks : Int) - iprev.discard_ticks) 0) :=
  ⟨statDelta_eq_max _ _, statDelta_eq_max _ _, statDelta_eq_max _ _, statDelta_eq_max _ _,
   statDelta_eq_max _ _, statDelta_eq_max _ _, statDelta_eq_max _ _, statDelta_eq_max _ _,
   statDelta_eq_max _ _, statDelta_eq_max _ _, statDelta_eq_max _ _, statDelta_eq_max _ _,
   statDelta_eq_max _ _, statDelta_eq_max _ _, statDelta_eq_max _ _, statDelta_eq_max _ _,
   statDelta_eq_max _ _, statDelta_eq_max _ _, statDelta_eq_max _ _, statDelta_eq_max _ _,
   statDelta_eq_max _ _, statDelta_eq_max _ _, statDelta_eq_max _ _, statDelta_eq_max _ _,
   statDelta_eq_max _ _, statDelta_eq_max _ _⟩

/-- C10: If the parsed `swap_used` is 0 while `swap_free` and `swap_total`
were both parsed positive, the snapshot's `swap_used` becomes
`swap_total - swap_free` (exact, since `swap_free ≤ swap_total < 2^64`
keeps the `uint64_t` subtraction from wrapping); in every other case the
snapshot is unchanged. -/
theorem c10_swap_used_fixup (v : StressVmstat)
    (hfle : v.swap_free ≤ v.swap_total) (hlt : v.swap_total < U64) :
    ((v.swap_used = 0 ∧ 0 < v.swap_free ∧ 0 < v.swap_total) →
      stress_read_vmstat_swap_fixup v = { v with swap_used := v.swap_total - v.swap_free }) ∧
    (¬ (v.swap_used = 0 ∧ 0 < v.swap_free ∧ 0 < v.swap_total) →
      stress_read_vmstat_swap_fixup v = v) := by
  constructor
  · intro hc
    simp only [stress_read_vmstat_swap_fixup, if_pos hc]
    have hmod : (v.swap_total + U64 - v.swap_free) % U64 = v.swap_total - v.swap_free := by
      simp only [U64] at hlt ⊢
      omega
    rw [hmod]
  · intro hc
    simp only [stress_read_vmstat_swap_fixup, if_neg hc]

/-- A snapshot with every counter zero (`memset` of the struct). -/
def vmstatZero : StressVmstat :=
  ⟨0, 0, 0, 0, 0, 0, 0, 0, 0, 0, 0, 0, 0, 0, 0, 0, 0, 0, 0, 0⟩

/-- Witness for `c10_swap_used_fixup`: a snapshot with
`swap_total = 10`, `swap_free = 3`, `swap_used = 0` is rewritten to
`swap_used = 7`. -/
theorem c10_swap_used_fixup_witness :
    stress_read_vmstat_swap_fixup { vmstatZero with swap_total := 10, swap_free := 3 } =
      { vmstatZero with swap_total := 10, swap_free := 3, swap_used := 7 } :=
  (c10_swap_used_fixup { vmstatZero with swap_total := 10, swap_free := 3 }
    (by decide) (by decide)).1 (by decide)

/--
`stress_set_generic_stat` (lines 281-292): parse the option value into the
delay; a value outside 1..3600 prints an error to stderr and calls
`x_exit(EXIT_FAILURE)`, i.e. the process dies during option parsing.
`none` models that fatal exit; `some d` models the delay being set.
-/
def stress_set_generic_stat (v : Int) : Option Int :=
  if v < 1 ∨ 3600 < v then none else some v

/-- `stress_set_vmstat` (lines 294-297). -/
def stress_set_vmstat (v : Int) : Option Int := stress_set_generic_stat v

/-- `stress_set_thermalstat` (lines 299-303). -/
def stress_set_thermalstat (v : Int) : Option Int := stress_set_generic_stat v

/-- `stress_set_iostat` (lines 305-308). -/
def stress_set_iostat (v : Int) : Option Int := stress_set_generic_stat v

/-- The three delay globals (lines 228-230).  A knob that is never given on
the command line keeps the initialiser 0; a present knob goes through
`stress_set_generic_stat`. -/
def configure_knob (opt : Option Int) : Option Int :=
  match opt with
  | none => some 0
  | some v => stress_set_generic_stat v

/-- The configuration record carried into the sampling worker:
`vmstat_delay`, `thermalstat_delay`, `iostat_delay`. -/
structure SchedConfig where
  vmstat_delay : Int
  thermalstat_delay : Int
  iostat_delay : Int
deriving DecidableEq

/-- Option parsing of the three knobs; `none` models the fatal `x_exit` of
`stress_set_generic_stat` on any out-of-range value (the process dies
before `stress_vmstat_start` can ever run). -/
def configure_all (vOpt tOpt iOpt : Option Int) : Option SchedConfig :=
  (configure_knob vOpt).bind fun vd =>
    (configure_knob tOpt).bind fun td =>
      (configure_knob iOpt).map fun iod => ⟨vd, td, iod⟩

/--
`sleep_delay` computation at the top of the scheduler loop
(lines 1166-1178): starting from `INT_MAX`, take `STRESS_MINIMUM` with
each delay that is `> 0`.  Note it folds in the configured delays, not
the remaining countdowns.
-/
def sleep_delay_calc (cfg : SchedConfig) : Int :=
  let s := INT_MAX
  let s := if 0 < cfg.vmstat_delay then STRESS_MINIMUM cfg.vmstat_delay s else s
  let s := if 0 < cfg.thermalstat_delay then STRESS_MINIMUM cfg.thermalstat_delay s else s
  if 0 < cfg.iostat_delay then STRESS_MINIMUM cfg.iostat_delay s else s

/--
The scheduler loop state: the three countdowns `vmstat_sleep`,
`thermalstat_sleep`, `iostat_sleep` (`int32_t` in C; modelled as `Int`,
signed overflow being undefined in C).  `cum` is ghost instrumentation:
the cumulative logical sleep (the loop advances its target time `t1` by
exactly `sleep_delay` per wake, line 1179).  The `_due` flags record
which report blocks ran on the latest wake (the `delay == sleep`
comparisons, lines 1202, 1244, 1292), and the `_first` fields are ghost:
the value of `cum` at the first wake on which that source fired.
-/
structure SchedState where
  vmstat_sleep : Int
  thermalstat_sleep : Int
  iostat_sleep : Int
  cum : Int
  vmstat_due : Bool
  thermalstat_due : Bool
  iostat_due : Bool
  vmstat_first : Option Int
  thermalstat_first : Option Int
  iostat_first : Option Int
deriving DecidableEq

/-- The countdown update of one source in one wake (lines 1191-1200):
after `sleep -= sleep_delay`, reset to the configured delay when the
delay is positive and the countdown dropped to `<= 0`. -/
def countdown_next (delay slept : Int) : Int :=
  if 0 < delay ∧ slept ≤ 0 then delay else slept

/-- One iteration of the scheduler loop (lines 1165-1311): compute
`sleep_delay`, sleep for it, decrement all three countdowns, reset the
due ones, and run the report blocks whose countdown now equals its
configured delay. -/
def sched_step (cfg : SchedConfig) (s : SchedState) : SchedState :=
  let m := sleep_delay_calc cfg
  let vs := countdown_next cfg.vmstat_delay (s.vmstat_sleep - m)
  let ts := countdown_next cfg.thermalstat_delay (s.thermalstat_sleep - m)
  let ios := countdown_next cfg.iostat_delay (s.iostat_sleep - m)
  { vmstat_sleep := vs
    thermalstat_sleep := ts
    iostat_sleep := ios
    cum := s.cum + m
    vmstat_due := decide (vs = cfg.vmstat_delay)
    thermalstat_due := decide (ts = cfg.thermalstat_delay)
    iostat_due := decide (ios = cfg.iostat_delay)
    vmstat_first :=
      if s.vmstat_first = none ∧ vs = cfg.vmstat_delay then some (s.cum + m) else s.vmstat_first
    thermalstat_first :=
      if s.thermalstat_first = none ∧ ts = cfg.thermalstat_delay then some (s.cum + m) else s.thermalstat_first
    iostat_first :=
      if s.iostat_first = none ∧ ios = cfg.iostat_delay then some (s.cum + m) else s.iostat_first }

/-- The state on entering the loop: `vmstat_sleep = vmstat_delay`,
`thermalstat_sleep = thermalstat_delay` (lines 1133-1134), and
`iostat_sleep` as set by lines 1135/1153-1154 (equal to `iostat_delay`,
or forced to 0 when the iostat-name discovery failed). -/
def sched_init (cfg : SchedConfig) (iostat_sleep0 : Int) : SchedState :=
  { vmstat_sleep := cfg.vmstat_delay
    thermalstat_sleep := cfg.thermalstat_delay
    iostat_sleep := iostat_sleep0
    cum := 0
    vmstat_due := false
    thermalstat_due := false
    iostat_due := false
    vmstat_first := none
    thermalstat_first := none
    iostat_first := none }

/-- `k` iterations of the scheduler loop. -/
def sched_run (cfg : SchedConfig) (s : SchedState) : Nat → SchedState
  | 0 => s
  | k + 1 => sched_step cfg (sched_run cfg s k)

/-- Result of `stress_vmstat_start`: either the early return with no child
forked, or a forked sampling worker with its loop's starting state. -/
inductive StartResult where
  | noWorker : StartResult
  | worker : SchedConfig → SchedState → StartResult
deriving DecidableEq

/--
`stress_vmstat_start` (lines 1115-1313): if all three delays are 0 it
returns at once (lines 1128-1131) and never reaches the `fork`; otherwise
the forked child seeds the snapshots and enters the scheduler loop.
`discoveryOk` abstracts whether `stress_iostat_iostat_name` found a
`/sys/block/$dev/stat` file; on failure line 1154 sets `iostat_sleep = 0`
(note: the countdown, not `iostat_delay`).
-/
def stress_vmstat_start (cfg : SchedConfig) (discoveryOk : Bool) : StartResult :=
  if cfg.vmstat_delay = 0 ∧ cfg.thermalstat_delay = 0 ∧ cfg.iostat_delay = 0 then
    .noWorker
  else
    .worker cfg (sched_init cfg (if discoveryOk then cfg.iostat_delay else 0))

/-- Option parsing followed by `stress_vmstat_start`: `none` means the
process exited fatally during parsing, so no worker was ever launched. -/
def stress_pipeline (vOpt tOpt iOpt : Option Int) (discoveryOk : Bool) : Option StartResult :=
  (configure_all vOpt tOpt iOpt).map (fun cfg => stress_vmstat_start cfg discoveryOk)

/-- C4 counterexample: configuring the value 0 on any of the three
sampling-interval knobs is NOT accepted as "disabled" - all three setters
take the fatal out-of-range exit (modelled `none`). -/
theorem c4_counterexample :
    stress_set_vmstat 0 = none ∧ stress_set_thermalstat 0 = none ∧
      stress_set_iostat 0 = none := by
  refine ⟨?_, ?_, ?_⟩ <;> decide

/-- C4 amended: a configured value is accepted exactly when it lies in
[1, 3600] (so configuring 0 is a fatal error); a source is disabled only
by leaving its knob absent, which keeps the delay at its initialiser 0,
and with all three knobs absent `start()` launches no worker. -/
theorem c4_zero_rejected_amended :
    (∀ v : Int, (stress_set_generic_stat v).isSome = true ↔ (1 ≤ v ∧ v ≤ 3600)) ∧
    configure_knob none = some 0 ∧
    stress_pipeline none none none true = some .noWorker := by
  refine ⟨fun v => ?_, rfl, rfl⟩
  simp only [stress_set_generic_stat]
  split <;> simp <;> omega

/-- C6: every configured interval outside [1, 3600] makes the setter take
the fatal-error exit during option parsing, and the whole pipeline ends
with no `StartResult` - the process is dead before any worker could be
forked, whichever knob carried the bad value. -/
theorem c6_out_of_range_fatal (v : Int) (h : v < 1 ∨ 3600 < v)
    (a b : Option Int) (d : Bool) :
    stress_set_generic_stat v = none ∧
    stress_pipeline (some v) a b d = none ∧
    stress_pipeline a (some v) b d = none ∧
    stress_pipeline a b (some v) d = none := by
  have hset : stress_set_generic_stat v = none := by
    simp only [stress_set_generic_stat, if_pos h]
  have hknob : configure_knob (some v) = none := by
    simp only [configure_knob, hset]
  refine ⟨hset, ?_, ?_, ?_⟩
  · simp [stress_pipeline, configure_all, hknob]
  · cases ha : configure_knob a <;>
      simp [stress_pipeline, configure_all, hknob, ha]
  · cases ha : configure_knob a <;> cases hb : configure_knob b <;>
      simp [stress_pipeline, configure_all, hknob, ha, hb]

/-- Witness for `c6_out_of_range_fatal` at the concrete out-of-range
values 0 and 5000. -/
theorem c6_out_of_range_fatal_witness :
    (stress_set_generic_stat 0 = none ∧ stress_pipeline (some 0) none none true = none) ∧
    stress_pipeline none (some 5000) none true = none :=
  ⟨⟨(c6_out_of_range_fatal 0 (Or.inl (by decide)) none none true).1,
    (c6_out_of_range_fatal 0 (Or.inl (by decide)) none none true).2.1⟩,
   (c6_out_of_range_fatal 5000 (Or.inr (by decide)) none none true).2.2.1⟩

/-- C7: with every sampling interval 0 (all absent / disabled),
`stress_vmstat_start` returns before the `fork`: no sampling worker is
created - and that early return happens exactly when all three are 0. -/
theorem c7_all_disabled_no_worker :
    stress_vmstat_start ⟨0, 0, 0⟩ true = .noWorker ∧
    stress_vmstat_start ⟨0, 0, 0⟩ false = .noWorker ∧
    (∀ (cfg : SchedConfig) (d : Bool),
      stress_vmstat_start cfg d = .noWorker ↔
        (cfg.vmstat_delay = 0 ∧ cfg.thermalstat_delay = 0 ∧ cfg.iostat_delay = 0)) := by
  refine ⟨by decide, by decide, fun cfg d => ?_⟩
  simp only [stress_vmstat_start]
  split
  · simp_all
  · simp_all

/-- Each wake's `sleep_delay` is at least 1: only delays that are `> 0` are
folded into the minimum, and the fold starts from `INT_MAX`. -/
theorem sleep_delay_calc_pos (cfg : SchedConfig) : 1 ≤ sleep_delay_calc cfg := by
  simp only [sleep_delay_calc, STRESS_MINIMUM, INT_MAX]
  split_ifs <;> omega

/-- One-source preservation step for the scheduler invariant: if a source's
countdown tracks `delay - cum` until its first fire, then after one wake of
duration `m` it still does, any recorded first-fire time lies in
`[delay, cum + m]`, and a wake on which the source is due has
`cum + m ≥ delay`. -/
theorem countdown_preserve (delay m cum vs : Int) (first : Option Int)
    (hm : 1 ≤ m) (hcum : 0 ≤ cum)
    (h1 : first = none → vs = delay - cum)
    (h2 : ∀ c, first = some c → delay ≤ c ∧ c ≤ cum) :
    ((if first = none ∧ countdown_next delay (vs - m) = delay
        then some (cum + m) else first) = none →
      countdown_next delay (vs - m) = delay - (cum + m)) ∧
    (∀ c, (if first = none ∧ countdown_next delay (vs - m) = delay
        then some (cum + m) else first) = some c →
      delay ≤ c ∧ c ≤ cum + m) ∧
    (countdown_next delay (vs - m) = delay → delay ≤ cum + m) := by
  have hdue : countdown_next delay (vs - m) = delay → delay ≤ cum + m := by
    intro hX
    rcases first with _ | c
    · have hvs := h1 rfl
      subst hvs
      simp only [countdown_next] at hX
      split at hX <;> omega
    · have := h2 c rfl
      omega
  by_cases hc : first = none ∧ countdown_next delay (vs - m) = delay
  · rw [if_pos hc]
    refine ⟨fun hF => Option.noConfusion hF, fun c hc' => ?_, hdue⟩
    injection hc' with hcc
    subst hcc
    exact ⟨hdue hc.2, le_refl _⟩
  · rw [if_neg hc]
    refine ⟨fun hF => ?_, fun c hc' => ?_, hdue⟩
    · have hvs := h1 hF
      have hXne : countdown_next delay (vs - m) ≠ delay := fun hX => hc ⟨hF, hX⟩
      simp only [countdown_next] at hXne ⊢
      split_ifs with hr
      · rw [if_pos hr] at hXne
        exact absurd rfl hXne
      · omega
    · have := h2 c hc'
      omega

/-- The scheduler-loop invariant: cumulative sleep is non-negative; each
source's countdown equals `delay - cum` until its first fire; a recorded
first fire lies between the configured delay and the current cumulative
sleep; and a due wake happens only once the cumulative sleep has reached
the configured delay. -/
def sched_inv (cfg : SchedConfig) (s : SchedState) : Prop :=
  0 ≤ s.cum ∧
  (s.vmstat_first = none → s.vmstat_sleep = cfg.vmstat_delay - s.cum) ∧
  (∀ c, s.vmstat_first = some c → cfg.vmstat_delay ≤ c ∧ c ≤ s.cum) ∧
  (s.vmstat_due = true → cfg.vmstat_delay ≤ s.cum) ∧
  (s.thermalstat_first = none → s.thermalstat_sleep = cfg.thermalstat_delay - s.cum) ∧
  (∀ c, s.thermalstat_first = some c → cfg.thermalstat_delay ≤ c ∧ c ≤ s.cum) ∧
  (s.thermalstat_due = true → cfg.thermalstat_delay ≤ s.cum) ∧
  (s.iostat_first = none → s.iostat_sleep = cfg.iostat_delay - s.cum) ∧
  (∀ c, s.iostat_first = some c → cfg.iostat_delay ≤ c ∧ c ≤ s.cum) ∧
  (s.iostat_due = true → cfg.iostat_delay ≤ s.cum)

/-- The invariant is preserved by one scheduler wake. -/
theorem sched_inv_step (cfg : SchedConfig) (s : SchedState)
    (h : sched_inv cfg s) : sched_inv cfg (sched_step cfg s) := by
  obtain ⟨hcum, hv1, hv2, hv3, ht1, ht2, ht3, hi1, hi2, hi3⟩ := h
  have hm : 1 ≤ sleep_delay_calc cfg := sleep_delay_calc_pos cfg
  have Hv := countdown_preserve cfg.vmstat_delay (sleep_delay_calc cfg)
    s.cum s.vmstat_sleep s.vmstat_first hm hcum hv1 hv2
  have Ht := countdown_preserve cfg.thermalstat_delay (sleep_delay_calc cfg)
    s.cum s.thermalstat_sleep s.thermalstat_first hm hcum ht1 ht2
  have Hi := countdown_preserve cfg.iostat_delay (sleep_delay_calc cfg)
    s.cum s.iostat_sleep s.iostat_first hm hcum hi1 hi2
  refine ⟨?_, ?_, ?_, ?_, ?_, ?_, ?_, ?_, ?_, ?_⟩ <;>
    simp only [sched_step]
  · omega
  · exact Hv.1
  · exact Hv.2.1
  · intro hd
    exact Hv.2.2 (of_decide_eq_true hd)
  · exact Ht.1
  · exact Ht.2.1
  · intro hd
    exact Ht.2.2 (of_decide_eq_true hd)
  · exact Hi.1
  · exact Hi.2.1
  · intro hd
    exact Hi.2.2 (of_decide_eq_true hd)

/-- The invariant holds on entering the loop (normal initialisation,
`iostat_sleep = iostat_delay`). -/
theorem sched_inv_init (cfg : SchedConfig) :
    sched_inv cfg (sched_init cfg cfg.iostat_delay) := by
  refine ⟨le_refl 0, ?_, ?_, ?_, ?_, ?_, ?_, ?_, ?_, ?_⟩ <;> simp [sched_init]

/-- The invariant holds after any number of wakes. -/
theorem sched_inv_run (cfg : SchedConfig) (k : Nat) :
    sched_inv cfg (sched_run cfg (sched_init cfg cfg.iostat_delay) k) := by
  induction k with
  | zero => exact sched_inv_init cfg
  | succ k ih => exact sched_inv_step cfg _ ih

/-- C1 counterexample: with intervals {5, 7, 11}, after the first wake the
remaining countdowns are (5, 2, 6), whose minimum is 2 - yet the next
wake's sleep duration is `sleep_delay_calc = 5` (the code folds the
configured delays, lines 1170-1177, never the countdowns), so the sleep
duration is NOT the minimum remaining countdown; moreover the
thermalstat source first fires at cumulative sleep 10, which is 3 seconds
past its configured interval 7 - more than one 1-second scheduler tick. -/
theorem c1_counterexample :
    sleep_delay_calc ⟨5, 7, 11⟩ = 5 ∧
    (sched_run ⟨5, 7, 11⟩ (sched_init ⟨5, 7, 11⟩ 11) 1).vmstat_sleep = 5 ∧
    (sched_run ⟨5, 7, 11⟩ (sched_init ⟨5, 7, 11⟩ 11) 1).thermalstat_sleep = 2 ∧
    (sched_run ⟨5, 7, 11⟩ (sched_init ⟨5, 7, 11⟩ 11) 1).iostat_sleep = 6 ∧
    ¬ sleep_delay_calc ⟨5, 7, 11⟩ = STRESS_MINIMUM 2 (STRESS_MINIMUM 5 6) ∧
    (sched_run ⟨5, 7, 11⟩ (sched_init ⟨5, 7, 11⟩ 11) 2).thermalstat_first = some 10 ∧
    ¬ ((10 : Int) ≤ 7 + 1) := by
  decide

/-- C1 amended: on every wake the scheduler sleeps the minimum CONFIGURED
interval among active sources (not the minimum remaining countdown); for
every configuration no source is ever due before its configured interval
of cumulative sleep has elapsed; and for intervals {5, 7, 11} the
cumulative sleeps before the first fires are 5, 10 and 15 - each at
least the configured interval and less than one sleep quantum (the
5-second minimum interval) beyond it. -/
theorem c1_scheduler_amended (cfg : SchedConfig) (k : Nat) :
    ((sched_run cfg (sched_init cfg cfg.iostat_delay) k).vmstat_due = true →
      cfg.vmstat_delay ≤ (sched_run cfg (sched_init cfg cfg.iostat_delay) k).cum) ∧
    ((sched_run cfg (sched_init cfg cfg.iostat_delay) k).thermalstat_due = true →
      cfg.thermalstat_delay ≤ (sched_run cfg (sched_init cfg cfg.iostat_delay) k).cum) ∧
    ((sched_run cfg (sched_init cfg cfg.iostat_delay) k).iostat_due = true →
      cfg.iostat_delay ≤ (sched_run cfg (sched_init cfg cfg.iostat_delay) k).cum) ∧
    sleep_delay_calc ⟨5, 7, 11⟩ = STRESS_MINIMUM 5 (STRESS_MINIMUM 7 11) ∧
    (sched_run ⟨5, 7, 11⟩ (sched_init ⟨5, 7, 11⟩ 11) 3).vmstat_first = some 5 ∧
    (sched_run ⟨5, 7, 11⟩ (sched_init ⟨5, 7, 11⟩ 11) 3).thermalstat_first = some 10 ∧
    (sched_run ⟨5, 7, 11⟩ (sched_init ⟨5, 7, 11⟩ 11) 3).iostat_first = some 15 ∧
    ((5 : Int) ≤ 5 ∧ (5 : Int) < 5 + 5) ∧
    ((7 : Int) ≤ 10 ∧ (10 : Int) < 7 + 5) ∧
    ((11 : Int) ≤ 15 ∧ (15 : Int) < 11 + 5) := by
  have H := sched_inv_run cfg k
  exact ⟨H.2.2.2.1, H.2.2.2.2.2.2.1, H.2.2.2.2.2.2.2.2.2,
    by decide, by decide, by decide, by decide, by decide, by decide, by decide⟩

/-- `isdigit` on the characters of a device name. -/
def stress_isdigit (c : Char) : Bool := decide ('0' ≤ c) && decide (c ≤ '9')

/-- The truncation loop of `stress_iostat_iostat_name` (lines 443-456),
processing the device name from its last character backwards: try the
`/sys/block/$dev/stat` endpoint for the current name (`statExists`
abstracts the `stat(2)` probe); on failure, stop unless the last
character is a digit, in which case chop it and retry.  The name is
carried reversed so the chop is structural. -/
def iostat_resolve_rev (statExists : List Char → Bool) : List Char → Option (List Char)
  | [] => none
  | c :: rest =>
    if statExists ((c :: rest).reverse) then some ((c :: rest).reverse)
    else if stress_isdigit c then iostat_resolve_rev statExists rest
    else none

/-- `stress_iostat_iostat_name` (lines 420-459) device-name truncation:
resolve the statistics endpoint for `dev`, e.g. partition then disk. -/
def stress_iostat_iostat_name (statExists : List Char → Bool)
    (dev : List Char) : Option (List Char) :=
  iostat_resolve_rev statExists dev.reverse

/-- C5 (code bug): when the iostat-name discovery fails (no truncation of
the device name has a statistics endpoint), line 1154 zeroes only the
countdown `iostat_sleep`, not the configured `iostat_delay`.  On the very
first wake the loop's reset (lines 1199-1200) restores the countdown to
`iostat_delay` and the due test (line 1292) fires, so with
`iostat_delay = 5` the iostat source is processed at the first wake
(cumulative sleep 5) and again on later due wakes - it is NOT
permanently disabled. -/
theorem c5_iostat_not_disabled :
    stress_iostat_iostat_name (fun _ => false) ['s', 'd', 'a', '1'] = none ∧
    stress_vmstat_start ⟨0, 0, 5⟩ false = .worker ⟨0, 0, 5⟩ (sched_init ⟨0, 0, 5⟩ 0) ∧
    (sched_run ⟨0, 0, 5⟩ (sched_init ⟨0, 0, 5⟩ 0) 1).iostat_due = true ∧
    (sched_run ⟨0, 0, 5⟩ (sched_init ⟨0, 0, 5⟩ 0) 1).iostat_first = some 5 ∧
    (sched_run ⟨0, 0, 5⟩ (sched_init ⟨0, 0, 5⟩ 0) 2).iostat_due = true := by
  refine ⟨rfl, by decide, by decide, by decide, by decide⟩

/-- One formatted vmstat report line (the `pr_inf` of lines 1216-1241):
`r b swpd free buff cache si so bi bo in cs us sy id wa st`.
The `in` and `id` columns are rendered `intr` and `idp`.  The integer
columns are `uint64_t` arithmetic; the five CPU percentages are computed
in `double`, modelled exactly over `ℚ`. -/
structure VmstatLine where
  r : Nat
  b : Nat
  swpd : Nat
  free : Nat
  buff : Nat
  cache : Nat
  si : Nat
  so : Nat
  bi : Nat
  bo : Nat
  intr : Nat
  cs : Nat
  us : ℚ
  sy : ℚ
  idp : ℚ
  wa : ℚ
  st : ℚ

/-- The vmstat report-line computation (lines 1202-1241): counter deltas
are divided by the configured `vmstat_delay` (integer division); the CPU
times are scaled by `100 / clk_tick_vmstat_delay` where
`clk_tick = sysconf(_SC_CLK_TCK) * sysconf(_SC_NPROCESSORS_ONLN)`
(line 1189) and `clk_tick_vmstat_delay = clk_tick * vmstat_delay`
(line 1203). -/
def stress_vmstat_report (v : StressVmstat)
    (vmstat_delay clk_tck nprocs : Nat) : VmstatLine :=
  let clk_tick : Nat := clk_tck * nprocs
  let clk_tick_vmstat_delay : ℚ := (clk_tick : ℚ) * (vmstat_delay : ℚ)
  { r := v.procs_running
    b := v.procs_blocked
    swpd := v.swap_used
    free := v.memory_free
    buff := v.memory_buff
    cache := v.memory_cached + v.memory_reclaimable
    si := v.swap_in / vmstat_delay
    so := v.swap_out / vmstat_delay
    bi := v.block_in / vmstat_delay
    bo := v.block_out / vmstat_delay
    intr := v.interrupt / vmstat_delay
    cs := v.context_switch / vmstat_delay
    us := 100 * (v.user_time : ℚ) / clk_tick_vmstat_delay
    sy := 100 * (v.system_time : ℚ) / clk_tick_vmstat_delay
    idp := 100 * (v.idle_time : ℚ) / clk_tick_vmstat_delay
    wa := 100 * (v.wait_time : ℚ) / clk_tick_vmstat_delay
    st := 100 * (v.stolen_time : ℚ) / clk_tick_vmstat_delay }

/-- One formatted iostat report line (lines 1292-1308):
`Inflght Rd-K/s Wr-K/s Dscd-K/s Rd/s Wr/s Dscd/s`. -/
structure IostatLine where
  inflight : ℚ
  rd_kb : ℚ
  wr_kb : ℚ
  dscd_kb : ℚ
  rd_ops : ℚ
  wr_ops : ℚ
  dscd_ops : ℚ

/-- The iostat report-line computation (lines 1292-1308): every delta is
scaled by `clk_scale = iostat_delay > 0 ? 1.0 / iostat_delay : 0.0`
(line 1293); sector counts are halved (`>> 1`) first to get KiB. -/
def stress_iostat_report (io : StressIostat) (iostat_delay : Nat) : IostatLine :=
  let clk_scale : ℚ := if 0 < iostat_delay then 1 / (iostat_delay : ℚ) else 0
  { inflight := (io.in_flight : ℚ) * clk_scale
    rd_kb := ((io.read_sectors / 2 : Nat) : ℚ) * clk_scale
    wr_kb := ((io.write_sectors / 2 : Nat) : ℚ) * clk_scale
    dscd_kb := ((io.discard_sectors / 2 : Nat) : ℚ) * clk_scale
    rd_ops := (io.read_ios : ℚ) * clk_scale
    wr_ops := (io.write_ios : ℚ) * clk_scale
    dscd_ops := (io.discard_ios : ℚ) * clk_scale }

/-- Modelled from the spec (RateSnapshot): a per-counter rate is the delta
divided by the elapsed wall-clock seconds since that source's previous
sample.  The code computes no such quantity; this definition exists only
to compare the spec's claimed rate with the emitted one. -/
def spec_wallclock_rate (delta elapsedSeconds : ℚ) : ℚ := delta / elapsedSeconds

/-- C2 counterexample: a vmstat source with `vmstat_delay = 5` whose
swap-in counter advanced by 100 while the wake actually took 10 wall-clock
seconds (the loop oversleeps under load; nothing resynchronises the
divisor): the emitted `si` column is `100 / 5 = 20`, but the claimed
delta-over-elapsed rate is `100 / 10 = 10`; the emitted value is computed
from the configured nominal interval, not from elapsed wall-clock time. -/
theorem c2_counterexample :
    (stress_get_vmstat vmstatZero { vmstatZero with swap_in := 100 }).swap_in = 100 ∧
    (stress_vmstat_report (stress_get_vmstat vmstatZero { vmstatZero with swap_in := 100 })
      5 100 4).si = 20 ∧
    spec_wallclock_rate 100 10 = 10 ∧
    ¬ (((stress_vmstat_report (stress_get_vmstat vmstatZero { vmstatZero with swap_in := 100 })
      5 100 4).si : ℚ) = spec_wallclock_rate 100 10) := by
  refine ⟨by decide, by decide, ?_, ?_⟩
  · norm_num [spec_wallclock_rate]
  · have hsi : (stress_vmstat_report (stress_get_vmstat vmstatZero
        { vmstatZero with swap_in := 100 }) 5 100 4).si = 20 := by decide
    rw [hsi]
    norm_num [spec_wallclock_rate]

/-- C2 amended: the emitted per-counter rates divide the clamped deltas by
the configured nominal sampling interval - integer division by
`vmstat_delay` for the vmstat columns, multiplication by
`1 / iostat_delay` for the iostat columns - with no dependence on the
elapsed wall-clock time. -/
theorem c2_rate_nominal_interval (prev cur : StressVmstat) (iprev icur : StressIostat)
    (delay clk_tck nprocs idelay : Nat) :
    (stress_vmstat_report (stress_get_vmstat prev cur) delay clk_tck nprocs).si
        = statDelta cur.swap_in prev.swap_in / delay ∧
    (stress_vmstat_report (stress_get_vmstat prev cur) delay clk_tck nprocs).so
        = statDelta cur.swap_out prev.swap_out / delay ∧
    (stress_vmstat_report (stress_get_vmstat prev cur) delay clk_tck nprocs).bi
        = statDelta cur.block_in prev.block_in / delay ∧
    (stress_vmstat_report (stress_get_vmstat prev cur) delay clk_tck nprocs).bo
        = statDelta cur.block_out prev.block_out / delay ∧
    (stress_vmstat_report (stress_get_vmstat prev cur) delay clk_tck nprocs).intr
        = statDelta cur.interrupt prev.interrupt / delay ∧
    (stress_vmstat_report (stress_get_vmstat prev cur) delay clk_tck nprocs).cs
        = statDelta cur.context_switch prev.context_switch / delay ∧
    (stress_iostat_report (stress_get_iostat iprev icur) idelay).rd_ops
        = (statDelta icur.read_ios iprev.read_ios : ℚ) *
            (if 0 < idelay then 1 / (idelay : ℚ) else 0) ∧
    (stress_iostat_report (stress_get_iostat iprev icur) idelay).wr_ops
        = (statDelta icur.write_ios iprev.write_ios : ℚ) *
            (if 0 < idelay then 1 / (idelay : ℚ) else 0) ∧
    (stress_iostat_report (stress_get_iostat iprev icur) idelay).dscd_ops
        = (statDelta icur.discard_ios iprev.discard_ios : ℚ) *
            (if 0 < idelay then 1 / (idelay : ℚ) else 0) ∧
    (stress_iostat_report (stress_get_iostat iprev icur) idelay).rd_kb
        = ((statDelta icur.read_sectors iprev.read_sectors / 2 : Nat) : ℚ) *
            (if 0 < idelay then 1 / (idelay : ℚ) else 0) :=
  ⟨rfl, rfl, rfl, rfl, rfl, rfl, rfl, rfl, rfl, rfl⟩

/-- C8: each CPU-utilisation percentage of a vmstat report equals
`100 * tick-delta / (clock-ticks-per-second * online-processors * interval)`
- the time-base of line 1189/1203 - and not a division by wall-clock
seconds.  (`double` arithmetic is modelled exactly over `ℚ`.) -/
theorem c8_cpu_percent_timebase (v : StressVmstat) (delay clk_tck nprocs : Nat) :
    (stress_vmstat_report v delay clk_tck nprocs).us
        = 100 * (v.user_time : ℚ) / ((clk_tck : ℚ) * (nprocs : ℚ) * (delay : ℚ)) ∧
    (stress_vmstat_report v delay clk_tck nprocs).sy
        = 100 * (v.system_time : ℚ) / ((clk_tck : ℚ) * (nprocs : ℚ) * (delay : ℚ)) ∧
    (stress_vmstat_report v delay clk_tck nprocs).idp
        = 100 * (v.idle_time : ℚ) / ((clk_tck : ℚ) * (nprocs : ℚ) * (delay : ℚ)) ∧
    (stress_vmstat_report v delay clk_tck nprocs).wa
        = 100 * (v.wait_time : ℚ) / ((clk_tck : ℚ) * (nprocs : ℚ) * (delay : ℚ)) ∧
    (stress_vmstat_report v delay clk_tck nprocs).st
        = 100 * (v.stolen_time : ℚ) / ((clk_tck : ℚ) * (nprocs : ℚ) * (delay : ℚ)) := by
  refine ⟨?_, ?_, ?_, ?_, ?_⟩ <;>
    simp only [stress_vmstat_report] <;> push_cast <;> ring

/-- The per-kind report counter (`static uint32_t vmstat_count`,
`thermalstat_count`, `iostat_count`; lines 1204, 1252, 1294): starts at 0
and is post-incremented once per report of that kind, wrapping modulo
2^32.  `header_count k` is the counter's value after `k` reports. -/
def header_count : Nat → Nat
  | 0 => 0
  | k + 1 => (header_count k + 1) % U32

/-- Whether the `k`-th report of a kind (1-indexed) prints the column
header: the test `(count++ % 25) == 0` (lines 1206, 1262, 1296) reads the
counter value left by the previous `k - 1` reports. -/
def header_on_report (k : Nat) : Bool := header_count (k - 1) % 25 == 0

/-- The wrapped report counter after `k` reports is `k % 2^32`. -/
theorem header_count_eq (k : Nat) : header_count k = k % U32 := by
  have h32 : U32 = 4294967296 := by norm_num [U32]
  induction k with
  | zero => simp [header_count]
  | succ k ih =>
    rw [header_count, ih, h32]
    omega

/-- C9 counterexample: the per-kind counter is 32-bit and wraps, so report
number 2^32 + 1 also prints a header although it is not of the form
25 j + 1 (it is ≡ 22 mod 25): the header is not printed ONLY on the 1st,
26th, 51st, ... reports. -/
theorem c9_counterexample :
    header_on_report (U32 + 1) = true ∧ (U32 + 1) % 25 ≠ 1 := by
  constructor
  · simp [header_on_report, Nat.add_sub_cancel, header_count_eq, Nat.mod_self]
  · decide

/-- C9 amended: for every source kind the `k`-th report prints the column
header iff `(k - 1) % 2^32` is divisible by 25; in particular, for the
first 2^32 reports (far beyond any feasible run) that is exactly the
reports `k ≡ 1 (mod 25)`: the 1st, 26th, 51st, and so on.  After the
32-bit counter wraps, the 25-report cadence restarts from the wrap. -/
theorem c9_header_every_25_amended (k : Nat) (h1 : 1 ≤ k) :
    (header_on_report k = true ↔ (k - 1) % U32 % 25 = 0) ∧
    (k ≤ U32 → (header_on_report k = true ↔ k % 25 = 1)) := by
  have h32 : U32 = 4294967296 := by norm_num [U32]
  have hb : header_on_report k = true ↔ (k - 1) % U32 % 25 = 0 := by
    simp [header_on_report, header_count_eq]
  refine ⟨hb, fun hk => ?_⟩
  rw [h32] at hk
  rw [hb, Nat.mod_eq_of_lt (show k - 1 < U32 by rw [h32]; omega)]
  omega

/-- Witness for `c9_header_every_25_amended`: the 26th report prints the
header. -/
theorem c9_header_every_25_witness : header_on_report 26 = true :=
  ((c9_header_every_25_amended 26 (by norm_num)).2 (by norm_num [U32])).mpr (by norm_num)
